import Mathlib

/-!
Verification of the access-control layer of a FastAPI/Firebase CRUD backend.

The development shallowly embeds the functions of `app/api/deps.py`,
`app/services/auth.py` (`AuthService.get_user_by_uid`),
`app/services/firestore.py` (collaborator-call outcomes) and
`app/core/logging.py` (`log_security_event`) as pure Lean functions.

Modelling conventions:
  * Python JSON-like values (the contents of `custom_claims`) are the
    inductive `Val`; Python `==` on such values is `pyEq` (note that in
    Python `True == 1` and `False == 0` hold, since `bool` is an `int`
    subclass); Python truthiness is `pyTruthy`.
  * A raised `fastapi.HTTPException` is the structure `HTTPExc`
    (status code and detail string; the `WWW-Authenticate` header is not
    modelled).  A function that can raise returns `Except`.  `PyErr`
    additionally has a `runtime` constructor for a non-HTTP exception
    propagating out of a dependency (for example an `AttributeError`).
  * The external collaborators (Firebase token verification,
    `firebase_auth.get_user`, Firestore document reads and writes) are a
    record `Env` of outcome functions, following the collaborator
    interfaces of the specification: the verifier reports its three
    failure classes as distinct outcomes, and each Firestore call either
    succeeds or raises (carrying the exception text).
  * The `try/except` block of `get_current_user` is modelled by running
    the body to an `Except TryAbort` value and then applying the
    `except`-clause dispatch.  In `firebase_admin`,
    `ExpiredIdTokenError` and `RevokedIdTokenError` subclass
    `InvalidIdTokenError`, so the first clause catches all three
    verifier failures; the trailing `except Exception` in Python also
    catches a `fastapi.HTTPException` raised inside the `try` body.
  * `UserInDB.from_firestore_doc` (a pydantic constructor) is fallible:
    it is modelled by the validation outcomes that the resolver paths
    can reach — the required `id` field (added by `get_document` to
    every stored document it returns, absent from the profile dict
    created in `get_user_by_uid`) and the `datetime` validation of the
    `created_at`/`updated_at` values, which fails on the
    `SERVER_TIMESTAMP` sentinels that `create_document` leaves in the
    dict it was passed.
  * Only the fields that the access-control path reads are modelled on
    the user records; fields such as `email` or `photo_url` that never
    influence a guard decision are omitted.
-/

/-- A JSON-like Python value, as stored in `custom_claims`. -/
inductive Val where
  | vNull : Val
  | vBool (b : Bool) : Val
  | vInt (n : Int) : Val
  | vStr (s : String) : Val
  | vList (elems : List Val) : Val
  | vDict (entries : List (String × Val)) : Val

/-- Python `dict` lookup on an association list (keys are unique in a
Python dict, so first-match lookup is faithful). -/
def lookupA (k : String) : List (String × Val) → Option Val
  | [] => none
  | (k', v) :: rest => if k' == k then some v else lookupA k rest

mutual

/-- Python `==` on JSON-like values.  `bool` is an `int` subclass in
Python, so `True == 1` and `False == 0`; all other cross-type
comparisons are unequal; lists compare pointwise and dicts compare as
key-value maps. -/
def pyEq : Val → Val → Bool
  | Val.vNull, Val.vNull => true
  | Val.vBool a, Val.vBool b => a == b
  | Val.vBool a, Val.vInt n => (if a then (1 : Int) else 0) == n
  | Val.vInt n, Val.vBool b => n == (if b then (1 : Int) else 0)
  | Val.vInt m, Val.vInt n => m == n
  | Val.vStr s, Val.vStr t => s == t
  | Val.vList as, Val.vList bs => pyEqList as bs
  | Val.vDict a, Val.vDict b => a.length == b.length && pyEqEntries a b
  | _, _ => false
termination_by a b => sizeOf a

/-- Pointwise Python `==` on lists. -/
def pyEqList : List Val → List Val → Bool
  | [], [] => true
  | a :: as, b :: bs => pyEq a b && pyEqList as bs
  | _, _ => false
termination_by a b => sizeOf a

/-- Every entry of the first dict is present and Python-equal in the
second. -/
def pyEqEntries : List (String × Val) → List (String × Val) → Bool
  | [], _ => true
  | (k, v) :: rest, b =>
    (match lookupA k b with
     | some w => pyEq v w
     | none => false) && pyEqEntries rest b
termination_by a b => sizeOf a

end

/-- Python truthiness of a JSON-like value. -/
def pyTruthy : Val → Bool
  | Val.vNull => false
  | Val.vBool b => b
  | Val.vInt n => n != 0
  | Val.vStr s => !s.isEmpty
  | Val.vList l => !l.isEmpty
  | Val.vDict d => !d.isEmpty

/-- The access-control-relevant fields of `app.models.user.UserInDB`. -/
structure UserInDB where
  uid : String
  roles : List String
  disabled : Bool
  email_verified : Bool
  custom_claims : List (String × Val)

/-- A raised `fastapi.HTTPException`: status code and detail string. -/
structure HTTPExc where
  status : Nat
  detail : String
deriving DecidableEq

/-- An exception propagating out of a dependency: either an
`HTTPException` or some other runtime exception. -/
inductive PyErr where
  | http (e : HTTPExc) : PyErr
  | runtime : PyErr
deriving DecidableEq

/-- The error raised by the `current_user.disabled` check
(`deps.py`, `get_current_active_user`). -/
def accountDisabledError : PyErr := .http ⟨403, "Account is disabled"⟩

/-- The error raised by the email-verification check
(`deps.py`, `get_current_verified_user`). -/
def emailNotVerifiedError : PyErr := .http ⟨403, "Email verification required"⟩

/-- The error raised by `role_checker` in `require_roles`. -/
def insufficientPermissionsError (required_roles : List String) : PyErr :=
  .http ⟨403, "Insufficient permissions. Required roles: "
      ++ String.intercalate ", " required_roles⟩

/-- The error raised by `claim_checker` when the claim key is absent. -/
def claimMissingError (claim_name : String) : PyErr :=
  .http ⟨403, "Missing required claim: " ++ claim_name⟩

/-- The error raised by `claim_checker` when the claim value differs. -/
def claimMismatchError (claim_name : String) : PyErr :=
  .http ⟨403, "Invalid claim value for: " ++ claim_name⟩

/-- The error raised by `access_checker` in `require_resource_access`. -/
def resourceAccessDeniedError : PyErr :=
  .http ⟨403, "You don\x27t have permission to access this resource"⟩

/-- The error raised by `feature_checker` in `require_feature_flag`. -/
def featureNotAvailableError (feature_name : String) : PyErr :=
  .http ⟨403, "Feature \x27" ++ feature_name ++ "\x27 is not available"⟩

/-- `deps.py` `get_current_active_user`, applied to the already
resolved principal supplied by its dependency. -/
def get_current_active_user (current_user : UserInDB) : Except PyErr UserInDB :=
  if current_user.disabled then .error accountDisabledError
  else .ok current_user

/-- `deps.py` `get_current_verified_user`. -/
def get_current_verified_user (current_user : UserInDB) : Except PyErr UserInDB :=
  match get_current_active_user current_user with
  | .error e => .error e
  | .ok cu =>
    if !cu.email_verified then .error emailNotVerifiedError
    else .ok cu

/-- `deps.py` `require_roles`: the `role_checker` closure applied to the
resolved principal. -/
def require_roles (required_roles : List String) (current_user : UserInDB) :
    Except PyErr UserInDB :=
  match get_current_active_user current_user with
  | .error e => .error e
  | .ok cu =>
    if !(required_roles.any fun role => cu.roles.contains role) then
      .error (insufficientPermissionsError required_roles)
    else .ok cu

/-- `deps.py` `require_admin` = `require_roles("admin")`. -/
def require_admin (current_user : UserInDB) : Except PyErr UserInDB :=
  require_roles ["admin"] current_user

/-- `deps.py` `require_moderator` = `require_roles("admin", "moderator")`. -/
def require_moderator (current_user : UserInDB) : Except PyErr UserInDB :=
  require_roles ["admin", "moderator"] current_user

/-- `deps.py` `require_custom_claim`: the `claim_checker` closure.
`current_user.custom_claims or {}` is the identity on our list model. -/
def require_custom_claim (claim_name : String) (claim_value : Val)
    (current_user : UserInDB) : Except PyErr UserInDB :=
  match get_current_active_user current_user with
  | .error e => .error e
  | .ok cu =>
    let user_claims := cu.custom_claims
    match lookupA claim_name user_claims with
    | none => .error (claimMissingError claim_name)
    | some v =>
      if !(pyEq v claim_value) then .error (claimMismatchError claim_name)
      else .ok cu

/-- `deps.py` `validate_resource_access`. -/
def validate_resource_access (resource_owner_uid : String)
    (current_user : UserInDB) (allow_admin allow_moderator : Bool) : Bool :=
  if resource_owner_uid == current_user.uid then true
  else if allow_admin && current_user.roles.contains "admin" then true
  else if allow_moderator && current_user.roles.contains "moderator" then true
  else false

/-- `deps.py` `require_resource_access`: the `access_checker` closure. -/
def require_resource_access (resource_owner_uid : String)
    (allow_admin allow_moderator : Bool) (current_user : UserInDB) :
    Except PyErr UserInDB :=
  match get_current_active_user current_user with
  | .error e => .error e
  | .ok cu =>
    if !(validate_resource_access resource_owner_uid cu allow_admin allow_moderator) then
      .error resourceAccessDeniedError
    else .ok cu

/-- `deps.py` `check_feature_flag`.  Returns the raw Python value that
the function returns (`True`, `False`, or the value stored under the
flag name); `.error ()` is the `AttributeError` raised when the
`feature_flags` claim holds a non-dict value (on which `.get` does not
exist). -/
def check_feature_flag (feature_name : String)
    (current_user : Option UserInDB) : Except Unit Val :=
  match current_user with
  | none => .ok (.vBool false)
  | some cu =>
    if cu.roles.contains "beta_tester" then .ok (.vBool true)
    else if !cu.custom_claims.isEmpty then
      match lookupA "feature_flags" cu.custom_claims with
      | none => .ok (.vBool false)
      | some (.vDict feature_flags) =>
        .ok ((lookupA feature_name feature_flags).getD (.vBool false))
      | some _ => .error ()
    else .ok (.vBool false)

/-- `deps.py` `require_feature_flag`: the `feature_checker` closure.  A
non-HTTP exception from `check_feature_flag` propagates. -/
def require_feature_flag (feature_name : String) (current_user : UserInDB) :
    Except PyErr UserInDB :=
  match get_current_active_user current_user with
  | .error e => .error e
  | .ok cu =>
    match check_feature_flag feature_name (some cu) with
    | .error _ => .error .runtime
    | .ok enabled =>
      if !(pyTruthy enabled) then .error (featureNotAvailableError feature_name)
      else .ok cu

/-- `deps.py` `get_pagination_params` (over Python ints). -/
def get_pagination_params (page per_page max_per_page : Int) : Int × Int :=
  let page := if page < 1 then 1 else page
  let per_page :=
    if per_page < 1 then 20
    else if per_page > max_per_page then max_per_page
    else per_page
  (page, per_page)

/-! ### The audit sink (`app/core/logging.py`) -/

/-- A structured security event as assembled by `log_security_event`. -/
structure AuditEvent where
  event_type : String
  user_id : Option String
deriving DecidableEq

/-- Modelled from the spec: the structured-logging backend behind
`structlog` / the standard-library `logging` module, which is an
external collaborator (§6 "Audit backend").  Per §4.4 the `record`
operation is log-and-drop: a handler failure is swallowed by the
logging machinery and never propagates, so the call is total; `none`
means the event was dropped because the backend was unavailable. -/
def logger_warning (backendOk : Bool) (event : AuditEvent) : Option AuditEvent :=
  if backendOk then some event else none

/-- `logging.py` `log_security_event`: builds the event and hands it to
the logging backend.  Total — it has no failure outcome. -/
def log_security_event (backendOk : Bool) (event_type : String)
    (user_id : Option String) : Option AuditEvent :=
  logger_warning backendOk ⟨event_type, user_id⟩

/-- `get_current_active_user` together with the audit write it performs
on the denial path (`log_security_event("disabled_user_access_attempt")`).
The second component is the list of audit-write results. -/
def get_current_active_user_audited (backendOk : Bool)
    (current_user : UserInDB) : Except PyErr UserInDB × List (Option AuditEvent) :=
  if current_user.disabled then
    (.error accountDisabledError,
     [log_security_event backendOk "disabled_user_access_attempt" (some current_user.uid)])
  else (.ok current_user, [])

/-- `require_roles` together with its audit writes
(`log_security_event("insufficient_permissions")` on the denial path). -/
def require_roles_audited (backendOk : Bool) (required_roles : List String)
    (current_user : UserInDB) : Except PyErr UserInDB × List (Option AuditEvent) :=
  match get_current_active_user_audited backendOk current_user with
  | (.error e, events) => (.error e, events)
  | (.ok cu, events) =>
    if !(required_roles.any fun role => cu.roles.contains role) then
      (.error (insufficientPermissionsError required_roles),
       events ++ [log_security_event backendOk "insufficient_permissions" (some cu.uid)])
    else (.ok cu, events)

/-! ### The principal resolver (`deps.py` `get_current_user` and
`auth.py` `AuthService.get_user_by_uid`) -/

/-- Outcome of `firebase_auth.verify_id_token` on a given credential:
the decoded token's subject id, or one of the three classified failures
of the token-verification collaborator (modelled as distinct outcomes,
per the collaborator interface of spec §6), or any other exception
(carrying its text). -/
inductive VerifyResult where
  | ok (uid : String) : VerifyResult
  | invalid : VerifyResult
  | expired : VerifyResult
  | revoked : VerifyResult
  | other (msg : String) : VerifyResult

/-- The identity-provider user record (`firebase_auth.get_user`), with
the fields `get_user_by_uid` reads.  `custom_claims` is `None` or a
dict in Python, hence an `Option`. -/
structure FirebaseUser where
  uid : String
  email_verified : Bool
  disabled : Bool
  custom_claims : Option (List (String × Val))

/-- The value found under a timestamp key (`created_at`, `updated_at`)
of a profile dict: the key may be absent, hold a Firestore timestamp
read back from the store (an object exposing `.timestamp`, which
`UserInDB.from_firestore_doc` converts to a `datetime`), or hold the
`SERVER_TIMESTAMP` write sentinel that `create_document` put into the
dict in place (the sentinel exposes no `.timestamp` and is not a
`datetime`, so it survives to pydantic validation unconverted). -/
inductive TsVal where
  | absent : TsVal
  | firestoreTs : TsVal
  | sentinel : TsVal
deriving DecidableEq

/-- The Firestore profile dict held by `get_user_by_uid`, restricted to
the fields that survive the merge and are later read: `roles` (with
`none` for an absent key) and `provider`, plus the fields that decide
whether `UserInDB.from_firestore_doc` validates — the `id` key (which
`get_document` adds as `data["id"] = doc.id` to every stored document
it returns, and which the profile created in `get_user_by_uid` never
has) and the two timestamp values.  All other merged fields are
overwritten from the identity-provider record. -/
structure ProfileDoc where
  roles : Option (List String)
  provider : String
  id_key : Option String
  created_at : TsVal
  updated_at : TsVal

/-- The merged user dict assembled by `get_user_by_uid`, restricted to
the access-control- and validation-relevant fields. -/
structure UserData where
  uid : String
  email_verified : Bool
  disabled : Bool
  custom_claims : List (String × Val)
  roles : Option (List String)
  provider : String
  id_key : Option String
  created_at : TsVal
  updated_at : TsVal

/-- The profile dict created by `get_user_by_uid` when the Firestore
document is absent: built from the identity-provider record, provider
`"unknown"`, and no `roles`, `id`, `created_at` or `updated_at` keys. -/
def profile_from_firebase (fu : FirebaseUser) : ProfileDoc :=
  { roles := none, provider := "unknown", id_key := none,
    created_at := .absent, updated_at := .absent }

/-- The in-place `data.update({"created_at": SERVER_TIMESTAMP,
"updated_at": SERVER_TIMESTAMP})` that `firestore.py`
`create_document` performs on the dict passed to it — the same dict
object `get_user_by_uid` goes on to merge. -/
def after_create_timestamps (d : ProfileDoc) : ProfileDoc :=
  { d with created_at := .sentinel, updated_at := .sentinel }

/-- The dict merge `{**user_profile, uid: firebase_user.uid, ...}` in
`get_user_by_uid`: identity-provider fields override the stored
profile; `roles`, `id`, `created_at` and `updated_at` (never set by
the override) come from the profile dict. -/
def merge_user_data (profile : ProfileDoc) (fu : FirebaseUser) : UserData :=
  { uid := fu.uid
    email_verified := fu.email_verified
    disabled := fu.disabled
    custom_claims := fu.custom_claims.getD []
    roles := profile.roles
    provider := profile.provider
    id_key := profile.id_key
    created_at := profile.created_at
    updated_at := profile.updated_at }

/-- `UserInDB.from_firestore_doc` on the merged data: converts the
timestamp fields that expose `.timestamp` to `datetime` (the
`SERVER_TIMESTAMP` sentinel does not), applies `setdefault` (an absent
`roles` key becomes `[]`), and runs the pydantic constructor, which
raises a `ValidationError` when the required `id` field is missing or
when a `created_at`/`updated_at` value is not a `datetime` — the
sentinel case.  `.error ()` is that `ValidationError`. -/
def from_firestore_doc (user_data : UserData) : Except Unit UserInDB :=
  match user_data.id_key with
  | none => .error ()
  | some _ =>
    if user_data.created_at = .sentinel || user_data.updated_at = .sentinel then
      .error ()
    else
      .ok { uid := user_data.uid
            roles := user_data.roles.getD []
            disabled := user_data.disabled
            email_verified := user_data.email_verified
            custom_claims := user_data.custom_claims }

/-- The external collaborators of one resolution, as outcome functions:
`verify` is `firebase_auth.verify_id_token` on a credential string;
`getUser` is `firebase_auth.get_user` on a subject id (`.ok none` is
`UserNotFoundError`, `.error msg` any other exception); `getDoc`,
`createDoc` and `updateDoc` are the Firestore calls on the `users`
document of the subject id (`.error msg` means the call raised, as
`firestore.py` re-raises every failure after logging it). -/
structure Env where
  verify : String → VerifyResult
  getUser : String → Except String (Option FirebaseUser)
  getDoc : String → Except String (Option ProfileDoc)
  createDoc : String → Except String Unit
  updateDoc : String → Except String Unit

/-- `auth.py` `AuthService.get_user_by_uid`: returns `none` when the
identity provider reports `UserNotFoundError`; when the Firestore
profile is absent it creates one from the identity-provider record
(the second component lists the documents written, as `(uid, doc)`
pairs); any other collaborator failure raises the HTTP 500
`"Failed to get user: ..."` of its `except Exception` clause. -/
def get_user_by_uid (env : Env) (uid : String) :
    Except HTTPExc (Option UserData × List (String × ProfileDoc)) :=
  match env.getUser uid with
  | .error msg => .error ⟨500, "Failed to get user: " ++ msg⟩
  | .ok none => .ok (none, [])
  | .ok (some fu) =>
    match env.getDoc uid with
    | .error msg => .error ⟨500, "Failed to get user: " ++ msg⟩
    | .ok docOpt =>
      match docOpt with
      | some user_profile => .ok (some (merge_user_data user_profile fu), [])
      | none =>
        let user_profile := after_create_timestamps (profile_from_firebase fu)
        match env.createDoc uid with
        | .error msg => .error ⟨500, "Failed to get user: " ++ msg⟩
        | .ok _ => .ok (some (merge_user_data user_profile fu), [(uid, user_profile)])

/-- An abort of the `try` body of `get_current_user`: one of the three
classified verifier failures, an `HTTPException` raised inside the
body, or any other exception. -/
inductive TryAbort where
  | invalidTok : TryAbort
  | expiredTok : TryAbort
  | revokedTok : TryAbort
  | httpExc (e : HTTPExc) : TryAbort
  | otherExc (msg : String) : TryAbort

/-- The `try` body of `deps.py` `get_current_user`: verify the token,
fetch the user, raise 404 when absent and 403 when disabled, update
`last_login_at` (awaited in the body — a failure aborts the body), and
build the `UserInDB` through `from_firestore_doc`, whose
`ValidationError` is a non-HTTP exception aborting the body.  The
second result component carries the profile documents created by
`get_user_by_uid`. -/
def get_current_user_try_body (env : Env) (token : String) :
    Except TryAbort (UserInDB × List (String × ProfileDoc)) :=
  match env.verify token with
  | .invalid => .error .invalidTok
  | .expired => .error .expiredTok
  | .revoked => .error .revokedTok
  | .other msg => .error (.otherExc msg)
  | .ok uid =>
    match get_user_by_uid env uid with
    | .error he => .error (.httpExc he)
    | .ok (none, _) => .error (.httpExc ⟨404, "User not found"⟩)
    | .ok (some user_data, writes) =>
      if user_data.disabled then .error (.httpExc ⟨403, "Account is disabled"⟩)
      else
        match env.updateDoc uid with
        | .error msg => .error (.otherExc msg)
        | .ok _ =>
          match from_firestore_doc user_data with
          | .error _ => .error (.otherExc "ValidationError")
          | .ok u => .ok (u, writes)

/-- `deps.py` `get_current_user`: the `try` body followed by the
`except`-clause dispatch.  In `firebase_admin`, `ExpiredIdTokenError`
and `RevokedIdTokenError` are subclasses of `InvalidIdTokenError`, so
the first clause `except firebase_auth.InvalidIdTokenError` catches
all three verifier failures and the dedicated expired/revoked clauses
below it are unreachable: every verifier failure surfaces as
401 `"Invalid authentication token"`.  Everything else — including an
`HTTPException` raised inside the `try` body, which in Python is an
`Exception` like any other — is caught by the trailing
`except Exception` clause and turned into the generic
401 `"Authentication failed"`. -/
def get_current_user (env : Env) (token : String) :
    Except HTTPExc (UserInDB × List (String × ProfileDoc)) :=
  match get_current_user_try_body env token with
  | .ok r => .ok r
  | .error .invalidTok => .error ⟨401, "Invalid authentication token"⟩
  | .error .expiredTok => .error ⟨401, "Invalid authentication token"⟩
  | .error .revokedTok => .error ⟨401, "Invalid authentication token"⟩
  | .error (.httpExc _) => .error ⟨401, "Authentication failed"⟩
  | .error (.otherExc _) => .error ⟨401, "Authentication failed"⟩

/-- `deps.py` `get_optional_current_user`: `None` without credentials;
otherwise delegates to `get_current_user`, catching `HTTPException`
and every other exception and returning `None`. -/
def get_optional_current_user (env : Env) (credentials : Option String) :
    Option UserInDB :=
  match credentials with
  | none => none
  | some cred =>
    match get_current_user env cred with
    | .ok (user, _) => some user
    | .error _ => none

/-! ### Theorems -/

/-- Helper: a disabled principal fails the `get_current_active_user`
check with the account-disabled error. -/
theorem get_current_active_user_of_disabled {u : UserInDB}
    (h : u.disabled = true) :
    get_current_active_user u = .error accountDisabledError := by
  simp [get_current_active_user, h]

/-- C1: for every principal whose account is disabled, each composite
guard — verified-user, role-gated (including admin-only and
moderator-or-admin), claim-gated, resource-access and feature-gated —
denies with the account-disabled reason (403 "Account is disabled"),
whatever roles or custom claims the principal holds: the disabled check
runs before any finer-grained predicate, so no other denial reason (and
no allow) can be produced. -/
theorem disabled_account_denies_every_guard (u : UserInDB)
    (h : u.disabled = true) (rs : List String) (claim_name : String)
    (claim_value : Val) (owner : String) (allow_admin allow_moderator : Bool)
    (flag : String) :
    get_current_verified_user u = .error accountDisabledError ∧
    require_roles rs u = .error accountDisabledError ∧
    require_admin u = .error accountDisabledError ∧
    require_moderator u = .error accountDisabledError ∧
    require_custom_claim claim_name claim_value u = .error accountDisabledError ∧
    require_resource_access owner allow_admin allow_moderator u
      = .error accountDisabledError ∧
    require_feature_flag flag u = .error accountDisabledError := by
  have ha := get_current_active_user_of_disabled h
  refine ⟨?_, ?_, ?_, ?_, ?_, ?_, ?_⟩ <;>
    simp [get_current_verified_user, require_roles, require_admin,
      require_moderator, require_custom_claim, require_resource_access,
      require_feature_flag, ha]

/-- A disabled principal that holds the admin role and a custom claim. -/
def uDisabledAdmin : UserInDB :=
  ⟨"u3", ["admin"], true, true, [("tier", .vStr "gold")]⟩

/-- Witness for C1 at a concrete disabled admin principal. -/
theorem disabled_account_denies_every_guard_witness :
    uDisabledAdmin.disabled = true ∧
    (get_current_verified_user uDisabledAdmin = .error accountDisabledError ∧
    require_roles ["admin"] uDisabledAdmin = .error accountDisabledError ∧
    require_admin uDisabledAdmin = .error accountDisabledError ∧
    require_moderator uDisabledAdmin = .error accountDisabledError ∧
    require_custom_claim "tier" (.vStr "gold") uDisabledAdmin
      = .error accountDisabledError ∧
    require_resource_access "u3" true false uDisabledAdmin
      = .error accountDisabledError ∧
    require_feature_flag "beta" uDisabledAdmin = .error accountDisabledError) :=
  ⟨rfl, disabled_account_denies_every_guard uDisabledAdmin rfl ["admin"] "tier"
    (.vStr "gold") "u3" true false "beta"⟩

/-- Helper: `validate_resource_access` decides exactly the ownership /
admin / moderator disjunction. -/
theorem validate_resource_access_iff (owner : String) (u : UserInDB)
    (allow_admin allow_moderator : Bool) :
    validate_resource_access owner u allow_admin allow_moderator = true ↔
      (owner = u.uid ∨ (allow_admin = true ∧ "admin" ∈ u.roles) ∨
        (allow_moderator = true ∧ "moderator" ∈ u.roles)) := by
  simp only [validate_resource_access]
  by_cases h1 : owner == u.uid <;> by_cases h2 : allow_admin = true <;>
    by_cases h3 : u.roles.contains "admin" = true <;>
    by_cases h4 : allow_moderator = true <;>
    by_cases h5 : u.roles.contains "moderator" = true <;>
    simp_all

/-- C2: for an active principal, the resource-access guard allows
exactly ownership, or admin role when `allow_admin`, or moderator role
when `allow_moderator`, and otherwise denies with the
resource-access-denied reason; in particular, with the default flags
(`allow_admin = true`, `allow_moderator = false`) a non-owner without
the admin role (for example with only the moderator role) is denied and
a non-owner admin is allowed. -/
theorem resource_access_characterization (owner : String)
    (allow_admin allow_moderator : Bool) (u : UserInDB)
    (h : u.disabled = false) :
    (require_resource_access owner allow_admin allow_moderator u = .ok u ↔
      (owner = u.uid ∨ (allow_admin = true ∧ "admin" ∈ u.roles) ∨
        (allow_moderator = true ∧ "moderator" ∈ u.roles))) ∧
    (¬(owner = u.uid ∨ (allow_admin = true ∧ "admin" ∈ u.roles) ∨
        (allow_moderator = true ∧ "moderator" ∈ u.roles)) →
      require_resource_access owner allow_admin allow_moderator u
        = .error resourceAccessDeniedError) ∧
    (owner ≠ u.uid → "admin" ∉ u.roles → "moderator" ∈ u.roles →
      require_resource_access owner true false u
        = .error resourceAccessDeniedError) ∧
    (owner ≠ u.uid → "admin" ∈ u.roles →
      require_resource_access owner true false u = .ok u) := by
  have hact : get_current_active_user u = .ok u := by
    simp [get_current_active_user, h]
  refine ⟨?_, ?_, ?_, ?_⟩
  · rw [require_resource_access, hact]
    rcases hval : validate_resource_access owner u allow_admin allow_moderator with _ | _
    · rw [← validate_resource_access_iff owner u allow_admin allow_moderator]
      simp [hval]
    · rw [← validate_resource_access_iff owner u allow_admin allow_moderator]
      simp [hval]
  · intro hno
    rw [← validate_resource_access_iff owner u allow_admin allow_moderator] at hno
    rw [require_resource_access, hact]
    simp_all
  · intro hown hadm _
    have hno : validate_resource_access owner u true false = false := by
      rcases hval : validate_resource_access owner u true false with _ | _
      · rfl
      · have := (validate_resource_access_iff owner u true false).mp hval
        simp_all
    rw [require_resource_access, hact]
    simp [hno]
  · intro hown hadm
    have hyes : validate_resource_access owner u true false = true :=
      (validate_resource_access_iff owner u true false).mpr (Or.inr (Or.inl ⟨rfl, hadm⟩))
    rw [require_resource_access, hact]
    simp [hyes]

/-- An active principal with only the moderator role. -/
def uModerator : UserInDB := ⟨"u2", ["moderator"], false, true, []⟩

/-- Witness for C2: an active moderator-only non-owner under the
default flags. -/
theorem resource_access_characterization_witness :
    uModerator.disabled = false ∧
    ("u1" : String) ≠ uModerator.uid ∧ "admin" ∉ uModerator.roles ∧
    "moderator" ∈ uModerator.roles ∧
    require_resource_access "u1" true false uModerator
      = .error resourceAccessDeniedError :=
  ⟨rfl, by decide, by decide, by decide,
    (resource_access_characterization "u1" true false uModerator rfl).2.2.1
      (by decide) (by decide) (by decide)⟩

/-- C10 counterexample: with `per_page = 0` and `max_per_page = 5` the
returned `per_page` is 20, which exceeds `max_per_page`, so the result
is not between 1 and `max_per_page` as claimed. -/
theorem pagination_params_bound_counterexample :
    get_pagination_params 1 0 5 = (1, 20) ∧ ¬((20 : Int) ≤ 5) := by
  constructor
  · rfl
  · decide

/-- C10 amended: `get_pagination_params` returns
`(max 1 page, if per_page < 1 then 20 else min per_page max_per_page)`:
any page below 1 becomes 1, a `per_page` below 1 becomes 20 even when
20 exceeds `max_per_page`, a `per_page` above `max_per_page` is clamped
to `max_per_page` even when that bound is below 1, and in-range values
pass through unchanged; the claimed `1 ≤ per_page ≤ max_per_page`
bound therefore holds only when `max_per_page ≥ 20`. -/
theorem pagination_params_closed_form (page per_page max_per_page : Int) :
    get_pagination_params page per_page max_per_page =
      (max 1 page, if per_page < 1 then 20 else min per_page max_per_page) := by
  simp only [get_pagination_params, Prod.mk.injEq, max_def, min_def]
  constructor
  · split_ifs <;> omega
  · split_ifs <;> omega

/-- An active principal whose claim `"x"` holds the integer 1. -/
def uIntClaim : UserInDB := ⟨"u1", [], false, true, [("x", .vInt 1)]⟩

/-- C5 counterexample: Python `==` equates `True` with `1`, so a
principal whose claim `"x"` stores the integer 1 passes the guard
`require_custom_claim("x", True)` although the stored value and the
expected value are distinct values of distinct types — "exact equality
with no type coercion" would demand a `ClaimMismatch` denial here. -/
theorem custom_claim_exact_equality_counterexample :
    require_custom_claim "x" (.vBool true) uIntClaim = .ok uIntClaim ∧
    Val.vInt 1 ≠ Val.vBool true := by
  constructor
  · simp [require_custom_claim, get_current_active_user, uIntClaim, lookupA, pyEq]
  · intro h
    injection h

/-- C5 amended: for an active principal the claim-gated guard allows
iff the claim key is present and the stored value equals the expected
value under Python equality `pyEq` (which equates `True`/`False` with
`1`/`0` but otherwise compares exactly); an absent key denies with the
claim-missing reason and a present but Python-unequal value denies
with the distinct claim-mismatch reason. -/
theorem custom_claim_guard_characterization (claim_name : String)
    (claim_value : Val) (u : UserInDB) (h : u.disabled = false) :
    (require_custom_claim claim_name claim_value u = .ok u ↔
      ∃ v, lookupA claim_name u.custom_claims = some v ∧
        pyEq v claim_value = true) ∧
    (lookupA claim_name u.custom_claims = none →
      require_custom_claim claim_name claim_value u
        = .error (claimMissingError claim_name)) ∧
    (∀ v, lookupA claim_name u.custom_claims = some v →
      pyEq v claim_value = false →
      require_custom_claim claim_name claim_value u
        = .error (claimMismatchError claim_name)) := by
  have hact : get_current_active_user u = .ok u := by
    simp [get_current_active_user, h]
  refine ⟨?_, ?_, ?_⟩
  · rw [require_custom_claim, hact]
    rcases hl : lookupA claim_name u.custom_claims with _ | v
    · simp [hl]
    · rcases hpe : pyEq v claim_value with _ | _ <;> simp [hl, hpe]
  · intro hl
    rw [require_custom_claim, hact]
    simp [hl]
  · intro v hl hpe
    rw [require_custom_claim, hact]
    simp [hl, hpe]

/-- An active principal whose claim `"tier"` holds the string "gold". -/
def uGoldClaim : UserInDB := ⟨"u1", [], false, true, [("tier", .vStr "gold")]⟩

/-- Witness for the amended C5 at a concrete active principal. -/
theorem custom_claim_guard_characterization_witness :
    uGoldClaim.disabled = false ∧
    ((require_custom_claim "tier" (.vStr "gold") uGoldClaim = .ok uGoldClaim ↔
      ∃ v, lookupA "tier" uGoldClaim.custom_claims = some v ∧
        pyEq v (.vStr "gold") = true) ∧
    (lookupA "tier" uGoldClaim.custom_claims = none →
      require_custom_claim "tier" (.vStr "gold") uGoldClaim
        = .error (claimMissingError "tier")) ∧
    (∀ v, lookupA "tier" uGoldClaim.custom_claims = some v →
      pyEq v (.vStr "gold") = false →
      require_custom_claim "tier" (.vStr "gold") uGoldClaim
        = .error (claimMismatchError "tier"))) :=
  ⟨rfl, custom_claim_guard_characterization "tier" (.vStr "gold") uGoldClaim rfl⟩

/-- C6: the feature-flag check never raises for an absent caller
(returning Python `False`), and for a principal whose `feature_flags`
claim — when present — is a dict, it returns without error a value
that is truthy exactly when the principal has the `beta_tester` role
or the `feature_flags` dict stores a truthy value under the flag name;
absence of both signals (missing key, empty claims, absent caller)
therefore yields a falsy result with no error. -/
theorem feature_flag_characterization (flag : String) (u : UserInDB)
    (hwf : lookupA "feature_flags" u.custom_claims = none ∨
      ∃ d, lookupA "feature_flags" u.custom_claims = some (.vDict d)) :
    check_feature_flag flag none = .ok (.vBool false) ∧
    ∃ v, check_feature_flag flag (some u) = .ok v ∧
      (pyTruthy v = true ↔
        ("beta_tester" ∈ u.roles ∨
          ∃ d, lookupA "feature_flags" u.custom_claims = some (.vDict d) ∧
            pyTruthy ((lookupA flag d).getD (.vBool false)) = true)) := by
  refine ⟨rfl, ?_⟩
  by_cases hbm : "beta_tester" ∈ u.roles
  · refine ⟨.vBool true, ?_, ?_⟩
    · simp [check_feature_flag, hbm]
    · simp [pyTruthy, hbm]
  · by_cases hemp : u.custom_claims.isEmpty = true
    · have hln : lookupA "feature_flags" u.custom_claims = none := by
        rcases hcc : u.custom_claims with _ | _
        · rfl
        · rw [hcc] at hemp
          simp [List.isEmpty] at hemp
      refine ⟨.vBool false, ?_, ?_⟩
      · simp [check_feature_flag, hbm, hemp]
      · simp [pyTruthy, hbm, hln]
    · rcases hwf with hln | ⟨d, hld⟩
      · refine ⟨.vBool false, ?_, ?_⟩
        · simp [check_feature_flag, hbm, hemp, hln]
        · simp [pyTruthy, hbm, hln]
      · refine ⟨(lookupA flag d).getD (.vBool false), ?_, ?_⟩
        · simp [check_feature_flag, hbm, hemp, hld]
        · constructor
          · intro ht
            exact Or.inr ⟨d, hld, ht⟩
          · rintro (hc | ⟨d', hld', ht⟩)
            · exact absurd hc hbm
            · rw [hld] at hld'
              injection hld' with h1
              injection h1 with h2
              rw [h2]
              exact ht

/-- An active beta tester without any custom claims. -/
def uBetaTester : UserInDB := ⟨"u5", ["beta_tester"], false, true, []⟩

/-- Witness for C6 at a concrete beta-tester principal. -/
theorem feature_flag_characterization_witness :
    (lookupA "feature_flags" uBetaTester.custom_claims = none ∨
      ∃ d, lookupA "feature_flags" uBetaTester.custom_claims = some (.vDict d)) ∧
    (check_feature_flag "beta" none = .ok (.vBool false) ∧
    ∃ v, check_feature_flag "beta" (some uBetaTester) = .ok v ∧
      (pyTruthy v = true ↔
        ("beta_tester" ∈ uBetaTester.roles ∨
          ∃ d, lookupA "feature_flags" uBetaTester.custom_claims = some (.vDict d) ∧
            pyTruthy ((lookupA "beta" d).getD (.vBool false)) = true))) :=
  ⟨Or.inl rfl, feature_flag_characterization "beta" uBetaTester (Or.inl rfl)⟩

/-- An enabled identity-provider record for subject `"u1"`. -/
def fuU1 : FirebaseUser := ⟨"u1", true, false, none⟩

/-- An enabled identity-provider record for subject `"u4"`. -/
def fuU4 : FirebaseUser := ⟨"u4", true, false, none⟩

/-- A disabled identity-provider record for subject `"u4"`. -/
def fuU4Disabled : FirebaseUser := ⟨"u4", true, true, none⟩

/-- A stored profile document with an empty role list. -/
def docPlain : ProfileDoc :=
  ⟨some [], "email", some "u1", .firestoreTs, .firestoreTs⟩

/-- Collaborators for a credential that verifies to subject `"u4"`
whom the identity provider does not know (`UserNotFoundError`). -/
def envUserAbsent : Env :=
  ⟨fun _ => .ok "u4", fun _ => .ok none, fun _ => .ok none,
   fun _ => .ok (), fun _ => .ok ()⟩

/-- Collaborators for a credential that verifies to subject `"u4"`
whose record is disabled. -/
def envDisabledSubject : Env :=
  ⟨fun _ => .ok "u4", fun _ => .ok (some fuU4Disabled),
   fun _ => .ok (some docPlain), fun _ => .ok (), fun _ => .ok ()⟩

/-- C3: the resolver does not classify its failures as claimed.  The
`raise HTTPException(404, "User not found")` and
`raise HTTPException(403, "Account is disabled")` sites inside the
`try` body of `get_current_user` are re-caught by the function's own
trailing `except Exception` clause (a `fastapi.HTTPException` is an
`Exception`), so both the absent-subject case and the disabled-account
case reach the caller as the generic 401 "Authentication failed" — a
sixth outcome distinct from the five advertised classifications, and
the code's own 404/403 raise sites are unreachable by callers. -/
theorem resolver_failure_classification_swallowed :
    get_current_user envUserAbsent "tok" = .error ⟨401, "Authentication failed"⟩ ∧
    get_current_user envDisabledSubject "tok"
      = .error ⟨401, "Authentication failed"⟩ ∧
    (⟨401, "Authentication failed"⟩ : HTTPExc) ≠ ⟨404, "User not found"⟩ ∧
    (⟨401, "Authentication failed"⟩ : HTTPExc) ≠ ⟨403, "Account is disabled"⟩ :=
  ⟨rfl, rfl, by decide, by decide⟩

/-- Collaborators for a credential that verifies to the enabled,
existing subject `"u1"` whose profile read succeeds but whose
`last_login_at` update fails. -/
def envUpdateFails : Env :=
  ⟨fun _ => .ok "u1", fun _ => .ok (some fuU1), fun _ => .ok (some docPlain),
   fun _ => .ok (), fun _ => .error "firestore unavailable"⟩

/-- C4 counterexample: a credential verifies to an enabled, existing
principal, every step succeeds except the last-seen update — and
resolution fails (with the generic 401) instead of returning the
principal, so the update is not best-effort. -/
theorem update_failure_not_best_effort_counterexample :
    envUpdateFails.verify "tok" = .ok "u1" ∧
    envUpdateFails.getUser "u1" = .ok (some fuU1) ∧
    fuU1.disabled = false ∧
    envUpdateFails.updateDoc "u1" = .error "firestore unavailable" ∧
    get_current_user envUpdateFails "tok"
      = .error ⟨401, "Authentication failed"⟩ :=
  ⟨rfl, rfl, rfl, rfl, rfl⟩

/-- C4 amended: the last-seen update is awaited inside the guarded
`try` body, so whenever the credential verifies to an enabled, existing
principal but the update fails, the failure propagates to the
`except Exception` clause and resolution fails with the generic 401
"Authentication failed" instead of returning the principal. -/
theorem update_failure_aborts_resolution (env : Env) (cred uid msg : String)
    (fu : FirebaseUser) (doc : ProfileDoc)
    (hv : env.verify cred = .ok uid)
    (hg : env.getUser uid = .ok (some fu))
    (hd : env.getDoc uid = .ok (some doc))
    (hdis : fu.disabled = false)
    (hu : env.updateDoc uid = .error msg) :
    get_current_user env cred = .error ⟨401, "Authentication failed"⟩ := by
  simp [get_current_user, get_current_user_try_body, get_user_by_uid,
    hv, hg, hd, hu, merge_user_data, hdis]

/-- Witness for the amended C4 at the concrete failing collaborators. -/
theorem update_failure_aborts_resolution_witness :
    envUpdateFails.verify "tok" = .ok "u1" ∧
    envUpdateFails.updateDoc "u1" = .error "firestore unavailable" ∧
    get_current_user envUpdateFails "tok"
      = .error ⟨401, "Authentication failed"⟩ :=
  ⟨rfl, rfl, update_failure_aborts_resolution envUpdateFails "tok" "u1"
    "firestore unavailable" fuU1 docPlain rfl rfl rfl rfl rfl⟩

/-- C7: the optional resolver is a total function into `Option` — every
failure of the strict resolver (absent credential, any of the verifier
failure classes, an identity-provider or profile-store failure, an
absent subject, a disabled account) yields `none`, and a successful
resolution yields the resolved principal. -/
theorem resolve_optional_never_raises (env : Env) (cred uid : String) :
    get_optional_current_user env none = none ∧
    (env.verify cred = .invalid →
      get_optional_current_user env (some cred) = none) ∧
    (env.verify cred = .expired →
      get_optional_current_user env (some cred) = none) ∧
    (env.verify cred = .revoked →
      get_optional_current_user env (some cred) = none) ∧
    (∀ msg, env.verify cred = .other msg →
      get_optional_current_user env (some cred) = none) ∧
    (env.verify cred = .ok uid → env.getUser uid = .ok none →
      get_optional_current_user env (some cred) = none) ∧
    (∀ msg, env.verify cred = .ok uid → env.getUser uid = .error msg →
      get_optional_current_user env (some cred) = none) ∧
    (∀ fu doc, env.verify cred = .ok uid → env.getUser uid = .ok (some fu) →
      env.getDoc uid = .ok (some doc) → fu.disabled = true →
      get_optional_current_user env (some cred) = none) ∧
    (∀ e, get_current_user env cred = .error e →
      get_optional_current_user env (some cred) = none) ∧
    (∀ u w, get_current_user env cred = .ok (u, w) →
      get_optional_current_user env (some cred) = some u) := by
  refine ⟨rfl, ?_, ?_, ?_, ?_, ?_, ?_, ?_, ?_, ?_⟩
  · intro hv
    simp [get_optional_current_user, get_current_user,
      get_current_user_try_body, hv]
  · intro hv
    simp [get_optional_current_user, get_current_user,
      get_current_user_try_body, hv]
  · intro hv
    simp [get_optional_current_user, get_current_user,
      get_current_user_try_body, hv]
  · intro msg hv
    simp [get_optional_current_user, get_current_user,
      get_current_user_try_body, hv]
  · intro hv hg
    simp [get_optional_current_user, get_current_user,
      get_current_user_try_body, get_user_by_uid, hv, hg]
  · intro msg hv hg
    simp [get_optional_current_user, get_current_user,
      get_current_user_try_body, get_user_by_uid, hv, hg]
  · intro fu doc hv hg hd hdis
    simp [get_optional_current_user, get_current_user,
      get_current_user_try_body, get_user_by_uid, hv, hg, hd,
      merge_user_data, hdis]
  · intro e he
    simp [get_optional_current_user, he]
  · intro u w hok
    simp [get_optional_current_user, hok]

/-- Collaborators whose verifier reports the credential invalid. -/
def envInvalidCred : Env :=
  ⟨fun _ => .invalid, fun _ => .ok none, fun _ => .ok none,
   fun _ => .ok (), fun _ => .ok ()⟩

/-- Witness for C7: a concrete credential that fails verification
resolves optionally to `none`. -/
theorem resolve_optional_never_raises_witness :
    envInvalidCred.verify "tok" = .invalid ∧
    get_optional_current_user envInvalidCred (some "tok") = none ∧
    get_optional_current_user envInvalidCred none = none :=
  ⟨rfl, (resolve_optional_never_raises envInvalidCred "tok" "u0").2.1 rfl,
   (resolve_optional_never_raises envInvalidCred "tok" "u0").1⟩

/-- `get_current_verified_user` together with its audit write
(`log_security_event("unverified_user_access_attempt")` on denial). -/
def get_current_verified_user_audited (backendOk : Bool)
    (current_user : UserInDB) : Except PyErr UserInDB × List (Option AuditEvent) :=
  match get_current_active_user_audited backendOk current_user with
  | (.error e, events) => (.error e, events)
  | (.ok cu, events) =>
    if !cu.email_verified then
      (.error emailNotVerifiedError,
       events ++ [log_security_event backendOk "unverified_user_access_attempt"
         (some cu.uid)])
    else (.ok cu, events)

/-- `require_custom_claim` together with its audit writes
(`log_security_event("missing_custom_claim")` resp.
`log_security_event("invalid_custom_claim")` on the denial paths). -/
def require_custom_claim_audited (backendOk : Bool) (claim_name : String)
    (claim_value : Val) (current_user : UserInDB) :
    Except PyErr UserInDB × List (Option AuditEvent) :=
  match get_current_active_user_audited backendOk current_user with
  | (.error e, events) => (.error e, events)
  | (.ok cu, events) =>
    match lookupA claim_name cu.custom_claims with
    | none =>
      (.error (claimMissingError claim_name),
       events ++ [log_security_event backendOk "missing_custom_claim" (some cu.uid)])
    | some v =>
      if !(pyEq v claim_value) then
        (.error (claimMismatchError claim_name),
         events ++ [log_security_event backendOk "invalid_custom_claim" (some cu.uid)])
      else (.ok cu, events)

/-- `require_resource_access` together with its audit write
(`log_security_event("unauthorized_resource_access")` on denial). -/
def require_resource_access_audited (backendOk : Bool)
    (resource_owner_uid : String) (allow_admin allow_moderator : Bool)
    (current_user : UserInDB) : Except PyErr UserInDB × List (Option AuditEvent) :=
  match get_current_active_user_audited backendOk current_user with
  | (.error e, events) => (.error e, events)
  | (.ok cu, events) =>
    if !(validate_resource_access resource_owner_uid cu allow_admin allow_moderator) then
      (.error resourceAccessDeniedError,
       events ++ [log_security_event backendOk "unauthorized_resource_access"
         (some cu.uid)])
    else (.ok cu, events)

/-- `require_feature_flag` together with its audit write
(`log_security_event("feature_flag_denied")` on denial; no audit write
on the propagating non-HTTP exception). -/
def require_feature_flag_audited (backendOk : Bool) (feature_name : String)
    (current_user : UserInDB) : Except PyErr UserInDB × List (Option AuditEvent) :=
  match get_current_active_user_audited backendOk current_user with
  | (.error e, events) => (.error e, events)
  | (.ok cu, events) =>
    match check_feature_flag feature_name (some cu) with
    | .error _ => (.error .runtime, events)
    | .ok enabled =>
      if !(pyTruthy enabled) then
        (.error (featureNotAvailableError feature_name),
         events ++ [log_security_event backendOk "feature_flag_denied" (some cu.uid)])
      else (.ok cu, events)

/-- C8: the audit write never influences any guard decision — for
every state of the audit backend, the decision component of each
audited guard (active-user, verified-user, role-gated and hence
admin-only and moderator-or-admin, claim-gated, resource-access,
feature-gated) equals the corresponding pure guard, which does not
mention the backend at all; the events are produced by the total,
never-raising `log_security_event`, so an unavailable backend drops
the event and yields the identical decision and reason. -/
theorem audit_failure_does_not_alter_decision (backendOk : Bool)
    (required_roles : List String) (claim_name : String) (claim_value : Val)
    (owner : String) (allow_admin allow_moderator : Bool) (flag : String)
    (u : UserInDB) :
    (get_current_active_user_audited backendOk u).1
      = get_current_active_user u ∧
    (get_current_verified_user_audited backendOk u).1
      = get_current_verified_user u ∧
    (require_roles_audited backendOk required_roles u).1
      = require_roles required_roles u ∧
    (require_custom_claim_audited backendOk claim_name claim_value u).1
      = require_custom_claim claim_name claim_value u ∧
    (require_resource_access_audited backendOk owner allow_admin allow_moderator u).1
      = require_resource_access owner allow_admin allow_moderator u ∧
    (require_feature_flag_audited backendOk flag u).1
      = require_feature_flag flag u := by
  refine ⟨?_, ?_, ?_, ?_, ?_, ?_⟩
  · rcases hd : u.disabled with _ | _ <;>
      simp [get_current_active_user_audited, get_current_active_user, hd]
  · rcases hd : u.disabled with _ | _ <;>
      simp [get_current_verified_user_audited, get_current_verified_user,
        get_current_active_user_audited, get_current_active_user, hd]
    split <;> rfl
  · rcases hd : u.disabled with _ | _ <;>
      simp [require_roles_audited, require_roles,
        get_current_active_user_audited, get_current_active_user, hd]
    split <;> rfl
  · rcases hd : u.disabled with _ | _ <;>
      simp [require_custom_claim_audited, require_custom_claim,
        get_current_active_user_audited, get_current_active_user, hd]
    split
    · rfl
    · split <;> rfl
  · rcases hd : u.disabled with _ | _ <;>
      simp [require_resource_access_audited, require_resource_access,
        get_current_active_user_audited, get_current_active_user, hd]
    split <;> rfl
  · rcases hd : u.disabled with _ | _ <;>
      simp [require_feature_flag_audited, require_feature_flag,
        get_current_active_user_audited, get_current_active_user, hd]
    split
    · rfl
    · split <;> rfl

/-- Collaborators for a credential verifying to subject `"u4"` whose
identity-provider record exists but whose profile document is absent. -/
def envProfileMissing : Env :=
  ⟨fun _ => .ok "u4", fun _ => .ok (some fuU4), fun _ => .ok none,
   fun _ => .ok (), fun _ => .ok ()⟩

/-- C9 counterexample: the identity provider knows subject `"u4"`, the
profile store has no document, and every collaborator call succeeds —
the profile document is created, yet resolution does not succeed: the
merged dict has no `id` key and carries the `SERVER_TIMESTAMP`
sentinels, so `UserInDB.from_firestore_doc` raises a validation error
and the catch-all clause turns it into the generic 401. -/
theorem missing_profile_resolution_fails_counterexample :
    envProfileMissing.getUser "u4" = .ok (some fuU4) ∧
    envProfileMissing.getDoc "u4" = .ok none ∧
    envProfileMissing.createDoc "u4" = .ok () ∧
    fuU4.disabled = false ∧
    envProfileMissing.updateDoc "u4" = .ok () ∧
    get_current_user envProfileMissing "tok"
      = .error ⟨401, "Authentication failed"⟩ :=
  ⟨rfl, rfl, rfl, rfl, rfl, rfl⟩

/-- C9 amended: when the identity provider knows the subject but the
profile store has no document, `get_user_by_uid` does create the
profile document from the identity-provider record and returns the
merged data rather than the "not found" outcome — the `None` return
feeding the resolver's user-not-found branch occurs exactly when the
identity provider itself reports the user as not found; but full
resolution then fails with the generic 401 "Authentication failed",
because the merged dict lacks the `id` field required by `UserInDB`
and its `created_at`/`updated_at` hold the `SERVER_TIMESTAMP`
sentinels, so the pydantic constructor raises and the catch-all
`except Exception` swallows the error. -/
theorem missing_profile_created_but_resolution_fails (env : Env)
    (cred uid : String) (fu : FirebaseUser) :
    (env.getUser uid = .ok (some fu) → env.getDoc uid = .ok none →
      env.createDoc uid = .ok () →
      get_user_by_uid env uid =
        .ok (some (merge_user_data
              (after_create_timestamps (profile_from_firebase fu)) fu),
             [(uid, after_create_timestamps (profile_from_firebase fu))])) ∧
    (env.getUser uid = .ok none → get_user_by_uid env uid = .ok (none, [])) ∧
    (∀ w, get_user_by_uid env uid = .ok (none, w) →
      env.getUser uid = .ok none) ∧
    (from_firestore_doc
      (merge_user_data (after_create_timestamps (profile_from_firebase fu)) fu)
        = .error ()) ∧
    (env.verify cred = .ok uid → env.getUser uid = .ok (some fu) →
      env.getDoc uid = .ok none → env.createDoc uid = .ok () →
      fu.disabled = false → env.updateDoc uid = .ok () →
      get_current_user env cred = .error ⟨401, "Authentication failed"⟩) := by
  refine ⟨?_, ?_, ?_, ?_, ?_⟩
  · intro hg hd hc
    simp [get_user_by_uid, hg, hd, hc]
  · intro hg
    simp [get_user_by_uid, hg]
  · intro w hw
    rcases hg : env.getUser uid with msg | fuo
    · simp [get_user_by_uid, hg] at hw
    · rcases fuo with _ | fu'
      · rfl
      · exfalso
        rcases hd : env.getDoc uid with msg | docOpt
        · simp [get_user_by_uid, hg, hd] at hw
        · rcases docOpt with _ | doc
          · rcases hc : env.createDoc uid with msg | _
            · simp [get_user_by_uid, hg, hd, hc] at hw
            · simp [get_user_by_uid, hg, hd, hc] at hw
          · simp [get_user_by_uid, hg, hd] at hw
  · simp [from_firestore_doc, merge_user_data, after_create_timestamps,
      profile_from_firebase]
  · intro hv hg hd hc hdis hu
    simp [get_current_user, get_current_user_try_body, get_user_by_uid,
      hv, hg, hd, hc, hu, merge_user_data, after_create_timestamps,
      profile_from_firebase, from_firestore_doc, hdis]

/-- Witness for the amended C9 at concrete collaborators with a
missing profile document. -/
theorem missing_profile_created_but_resolution_fails_witness :
    envProfileMissing.getUser "u4" = .ok (some fuU4) ∧
    envProfileMissing.getDoc "u4" = .ok none ∧
    get_user_by_uid envProfileMissing "u4" =
      .ok (some (merge_user_data
            (after_create_timestamps (profile_from_firebase fuU4)) fuU4),
           [("u4", after_create_timestamps (profile_from_firebase fuU4))]) ∧
    get_current_user envProfileMissing "tok"
      = .error ⟨401, "Authentication failed"⟩ :=
  ⟨rfl, rfl,
   (missing_profile_created_but_resolution_fails envProfileMissing "tok" "u4"
     fuU4).1 rfl rfl rfl,
   (missing_profile_created_but_resolution_fails envProfileMissing "tok" "u4"
     fuU4).2.2.2.2 rfl rfl rfl rfl rfl rfl⟩
